import Mathlib

/-!
# Verification of the soundify `SpotifyClient` request executor

Shallow embedding of `src/api/client.ts` (the `SpotifyClient.fetch` retry /
refresh / error-classification state machine) together with the auth-module
interface declarations from `src/unnamed/part_000`.

Modelling conventions:
* The runtime transport (`fetch`) is a black box, modelled as a function from
  the physical-attempt index to the `Response` obtained by that attempt.
* Timers (`setTimeout`) and stream operations (`res.text()`, `res.json()`,
  `res.body.cancel()`) are modelled as events recorded in an execution trace.
* The recursive closure `call()` has no termination guarantee in the source
  (a transport answering 429 with a `Retry-After` hint forever is retried
  forever), so the loop takes a fuel argument; a `none` result means the
  source recursion does not terminate within that fuel.
* Machine values: HTTP statuses and durations are `Nat`; JS `NaN` from
  `Number(...)` is `Option.none`; the JS `undefined` value is `Option.none`
  at type `Option Json`.
-/

namespace Soundify

/-! ## JSON values (model of the data handled by the runtime `JSON.parse`) -/

/-- JSON values as produced by the runtime `JSON.parse`.  Numbers are
modelled as integers (the bodies relevant here carry only integer
`status` fields; fractional and exponent forms are outside the modelled
inputs). -/
inductive Json where
  | null : Json
  | bool (b : Bool) : Json
  | num (n : Int) : Json
  | str (s : String) : Json
  | arr (items : List Json) : Json
  | obj (fields : List (String × Json)) : Json

/-- Field lookup on a parsed JSON object.  `JSON.parse` keeps the last of
duplicate keys, so the lookup takes the last matching member. -/
def objLookup : List (String × Json) → String → Option Json
  | [], _ => none
  | (k, v) :: rest, name =>
    match objLookup rest name with
    | some r => some r
    | none => if k = name then some v else none

/-! ## A model of the runtime `JSON.parse`

Character-list parser with fuel (one unit per parsed value, bounded by the
input length).  Scope of the model: `null` / `true` / `false`, integer
numbers with an optional minus sign, strings without escape sequences,
arrays and objects.  Inputs outside this scope (escapes, fractions,
exponents) are rejected, i.e. treated as a `JSON.parse` failure. -/

/-- Skip JSON whitespace. -/
def skipWs : List Char → List Char
  | c :: cs =>
    if c = ' ' ∨ c = '\t' ∨ c = '\n' ∨ c = '\r' then skipWs cs else c :: cs
  | [] => []

/-- Read the characters of a string literal after the opening quote.
Escape sequences are outside the modelled inputs (parse failure). -/
def readStringLit : List Char → Option (List Char × List Char)
  | [] => none
  | c :: cs =>
    if c = '"' then some ([], cs)
    else if c = '\\' then none
    else match readStringLit cs with
      | some (s, rest) => some (c :: s, rest)
      | none => none

/-- Accumulate a run of decimal digits into a number. -/
def readDigits (acc : Nat) : List Char → Nat × List Char
  | c :: cs => if c.isDigit then readDigits (10 * acc + (c.toNat - 48)) cs else (acc, c :: cs)
  | [] => (acc, [])

mutual

/-- Parse one JSON value (fuel-bounded). -/
def parseVal : Nat → List Char → Option (Json × List Char)
  | 0, _ => none
  | Nat.succ fuel, cs =>
    match skipWs cs with
    | [] => none
    | c :: rest =>
      if c = '"' then
        match readStringLit rest with
        | some (s, r) => some (.str (String.mk s), r)
        | none => none
      else if c = '{' then
        match skipWs rest with
        | '}' :: r => some (.obj [], r)
        | other => match parseMembers fuel other with
          | some (fs, r) => some (.obj fs, r)
          | none => none
      else if c = '[' then
        match skipWs rest with
        | ']' :: r => some (.arr [], r)
        | other => match parseItems fuel other with
          | some (xs, r) => some (.arr xs, r)
          | none => none
      else if c = '-' then
        match rest with
        | d :: _ =>
          if d.isDigit then
            match readDigits 0 rest with
            | (n, r) => some (.num (-(n : Int)), r)
          else none
        | [] => none
      else if c.isDigit then
        match readDigits 0 (c :: rest) with
        | (n, r) => some (.num (n : Int), r)
      else match c :: rest with
        | 'n' :: 'u' :: 'l' :: 'l' :: r => some (.null, r)
        | 't' :: 'r' :: 'u' :: 'e' :: r => some (.bool true, r)
        | 'f' :: 'a' :: 'l' :: 's' :: 'e' :: r => some (.bool false, r)
        | _ => none

/-- Parse the members of a JSON object after `{` (at least one member). -/
def parseMembers : Nat → List Char → Option (List (String × Json) × List Char)
  | 0, _ => none
  | Nat.succ fuel, cs =>
    match skipWs cs with
    | '"' :: rest =>
      match readStringLit rest with
      | some (k, r1) =>
        match skipWs r1 with
        | ':' :: r2 =>
          match parseVal fuel r2 with
          | some (v, r3) =>
            match skipWs r3 with
            | ',' :: r4 =>
              match parseMembers fuel r4 with
              | some (fs, r5) => some ((String.mk k, v) :: fs, r5)
              | none => none
            | '}' :: r4 => some ([(String.mk k, v)], r4)
            | _ => none
          | none => none
        | _ => none
      | none => none
    | _ => none

/-- Parse the items of a JSON array after `[` (at least one item). -/
def parseItems : Nat → List Char → Option (List Json × List Char)
  | 0, _ => none
  | Nat.succ fuel, cs =>
    match parseVal fuel cs with
    | some (v, r1) =>
      match skipWs r1 with
      | ',' :: r2 =>
        match parseItems fuel r2 with
        | some (xs, r3) => some (v :: xs, r3)
        | none => none
      | ']' :: r2 => some ([v], r2)
      | _ => none
    | none => none

end

/-- Model of the runtime `JSON.parse`: `none` means `JSON.parse` throws. -/
def jsonParse (s : String) : Option Json :=
  match parseVal (s.length + 1) s.data with
  | some (v, rest) => if skipWs rest = [] then some v else none
  | none => none

/-! ## JS property access and the error-envelope message extraction -/

/-- JS property access `base[name]` where `base` is a JS value
(`none` = `undefined`).  Result `none` means the access THROWS a
`TypeError` (base `undefined` or `null`); `some none` means the result is
the value `undefined` (missing member, or member access on a primitive /
array wrapper, which has no such property for the names used here);
`some (some v)` is a present member. -/
def jsAccess : Option Json → String → Option (Option Json)
  | none, _ => none
  | some .null, _ => none
  | some (.obj fs), name => some (objLookup fs name)
  | some _, _ => some none

/-- Model of client.ts lines 221-226:
```
const text = await res.text();
try {
  message = (JSON.parse(text) as SpotifyRegularError).error.message;
} catch (_) {
  message = text;
}
```
The result is the JS value assigned to `message`: `some v` a JSON value,
`none` the JS value `undefined` (reached when the parsed body has an
`error` member on which the `message` access yields `undefined`). -/
def errorMessage (text : String) : Option Json :=
  match jsonParse text with
  | none => some (.str text)
  | some v =>
    match jsAccess (some v) "error" with
    | none => some (.str text)
    | some errV =>
      match jsAccess errV "message" with
      | none => some (.str text)
      | some m => m

/-! ## `Number(...)` on the `Retry-After` header -/

/-- Digits of a string accumulated to a `Nat`. -/
def digitsToNat (cs : List Char) : Nat :=
  (readDigits 0 cs).1

/-- Model of the runtime conversion `Number(res.headers.get("Retry-After"))`
(client.ts line 199): the argument is `none` for an absent header
(`Number(null) = 0`); the empty string converts to `0`; a nonempty string
of decimal digits converts to its value; every other string is mapped to
`NaN`, modelled as `none` (this matches non-numeric text such as `"abc"`;
signed, fractional, exponent and whitespace-padded forms are outside the
modelled inputs). -/
def jsNumber : Option String → Option Nat
  | none => some 0
  | some s =>
    if s = "" then some 0
    else if s.data.all (·.isDigit) then some (digitsToNat s.data) else none

/-- JS truthiness of the converted `Retry-After` value
(client.ts line 201 `if (retryAfter)`): `0` and `NaN` are falsy. -/
def truthyNum : Option Nat → Bool
  | some (Nat.succ _) => true
  | _ => false

/-! ## Headers -/

/-- ASCII lower-casing of one character (model of the case-insensitivity of
header names in the runtime `Headers` class). -/
def lowerChar (c : Char) : Char :=
  if 'A' ≤ c ∧ c ≤ 'Z' then Char.ofNat (c.toNat + 32) else c

/-- ASCII lower-casing of a header name. -/
def lowerStr (s : String) : String :=
  String.mk (s.data.map lowerChar)

/-- Model of `Headers.prototype.append` (client.ts line 166): if an entry
with the same (case-insensitive) name exists, the new value is combined
with the existing one, separated by `", "`; otherwise a new entry is
added. -/
def headersAppend (hs : List (String × String)) (name value : String) :
    List (String × String) :=
  if hs.any (fun p => lowerStr p.1 = lowerStr name) then
    hs.map (fun p =>
      if lowerStr p.1 = lowerStr name then (p.1, p.2 ++ ", " ++ value) else p)
  else hs ++ [(name, value)]

/-- Model of `Headers.prototype.get`: case-insensitive lookup returning all
matching values joined by `", "`, or `none` (JS `null`) when absent. -/
def headersGet (hs : List (String × String)) (name : String) : Option String :=
  match (hs.filter (fun p => lowerStr p.1 = lowerStr name)).map (·.2) with
  | [] => none
  | v :: vs => some (String.intercalate ", " (v :: vs))

/-- `BASE_HEADERS` of `SpotifyClient` (client.ts lines 113-116). -/
def BASE_HEADERS : List (String × String) :=
  [("Content-Type", "application/json"), ("Accept", "application/json")]

/-- Model of client.ts lines 163-168: start from `BASE_HEADERS` and
`append` every caller-supplied header (`Object.entries(headers)` is
modelled as the entry list of the caller's header record). -/
def buildHeaders (callerHeaders : List (String × String)) :
    List (String × String) :=
  callerHeaders.foldl (fun hs p => headersAppend hs p.1 p.2) BASE_HEADERS

/-! ## Responses and the transport -/

/-- A transport response: status code, headers, and body.  `body = none`
models a `null` body stream (`res.body === null`); `body = some text`
models a present stream whose full text is `text`. -/
structure Response where
  status : Nat
  headers : List (String × String)
  body : Option String

/-- `Response.ok` of the runtime fetch API: status in the inclusive range
200-299 (client.ts line 186 `if (res.ok) return res`). -/
def Response.ok (r : Response) : Bool :=
  decide (200 ≤ r.status ∧ r.status ≤ 299)

/-- The transport (`fetch`) is a black box: the function gives the response
obtained by the physical attempt with the given index (0-based). -/
def Transport := Nat → Response

/-! ## Token sources -/

/-- A dynamic token provider as consumed by `SpotifyClient.fetch`:
`getToken i` is the string returned by the i-th `getToken()` invocation,
`refreshToken i` the string the promise of the i-th `refreshToken()`
invocation resolves to. -/
structure TokenProvider where
  getToken : Nat → String
  refreshToken : Nat → String

/-- The client's `authProvider : IAuthProvider | string`
(client.ts line 123): a static token string or a dynamic provider. -/
inductive AuthProvider where
  | str (token : String) : AuthProvider
  | obj (p : TokenProvider) : AuthProvider

/-- `typeof this.authProvider === "object"` (client.ts line 189). -/
def AuthProvider.isObj : AuthProvider → Bool
  | .str _ => false
  | .obj _ => true

/-- The value `this.authProvider.refreshToken()` resolves to at the i-th
refresh invocation.  The `.str` case returns a junk value; it is
unreachable because the refresh branch is guarded by
`typeof this.authProvider === "object"`. -/
def AuthProvider.refreshResult : AuthProvider → Nat → String
  | .str _, _ => ""
  | .obj p, i => p.refreshToken i

/-- Client.ts lines 173-175: the initial token resolution
`typeof this.authProvider === "object" ? this.authProvider.getToken() :
this.authProvider`. -/
def AuthProvider.initialToken : AuthProvider → String
  | .str s => s
  | .obj p => p.getToken 0

/-! ## Client options -/

/-- `SpotifyClientOpts` (client.ts lines 87-107).  In the source a field
left `undefined` is falsy in every use (`if (... && retryTimesOn5xx)`,
`if (this.opts.retryDelayOn5xx)`, `this.opts.retryOnRateLimit`), exactly
like `0` / `false`, so absent fields are modelled by the defaults. -/
structure SpotifyClientOpts where
  retryTimesOn5xx : Nat := 0
  retryDelayOn5xx : Nat := 0
  retryOnRateLimit : Bool := false

/-- `responseType : ExpectedResponse = "json" | "void"` (client.ts line 43). -/
inductive ExpectedResponse where
  | json : ExpectedResponse
  | void : ExpectedResponse

/-! ## Execution traces -/

/-- Observable events of one logical call, in order:
* `getTokenCall` - `this.authProvider.getToken()` invoked (with its result);
* `attempt` - one physical `fetch` dispatched, recording the
  `Authorization` header value set for it and the status of its response;
* `refreshCall` - `this.authProvider.refreshToken()` awaited (with its
  result);
* `sleepMs` - `setTimeout` suspension for the given milliseconds;
* `bodyText i` / `bodyJson i` / `bodyCancel i` - the body STREAM of the
  response obtained at attempt `i` fully read as text / fully read and
  parsed by `res.json()` / explicitly cancelled. -/
inductive Event where
  | getTokenCall (result : String) : Event
  | attempt (authHeader : String) (status : Nat) : Event
  | refreshCall (result : String) : Event
  | sleepMs (ms : Nat) : Event
  | bodyText (idx : Nat) : Event
  | bodyJson (idx : Nat) : Event
  | bodyCancel (idx : Nat) : Event
deriving DecidableEq

/-! ## The call loop -/

/-- The mutable state the closure `call()` reads and writes
(client.ts lines 170-178): the per-call token variable, the one-shot
refresh flag, the remaining 5xx retry budget, plus the bookkeeping
counters of the model (next physical-attempt index and next refresh
invocation index). -/
structure LoopSt where
  accessToken : String
  isTriedRefreshToken : Bool
  retry5xx : Nat
  attemptIdx : Nat
  refreshIdx : Nat

/-- `const call = async (): Promise<Response>` either returns a response
(`success`, with the index of the attempt that obtained it) or throws
`new SpotifyError(message, res.status)` (`thrown`; the message is a JS
value, `none` being `undefined`). -/
inductive CallOutcome where
  | success (res : Response) (idx : Nat) : CallOutcome
  | thrown (message : Option Json) (status : Nat) : CallOutcome

/-- Most significant decimal digit (fuel-bounded; fuel `n` suffices for
input `n`). -/
def msdAux : Nat → Nat → Nat
  | 0, n => n
  | Nat.succ fuel, n => if n < 10 then n else msdAux fuel (n / 10)

/-- `res.status.toString().startsWith("5")` (client.ts line 207): the most
significant decimal digit of the status is 5. -/
def statusStartsWith5 (n : Nat) : Bool :=
  msdAux n n = 5

/-- The message computed by the terminal error path
(client.ts lines 216-227): the literal string `"null"` when the response
body is `null`, otherwise the envelope extraction on the body text. -/
def terminalMessage (res : Response) : Option Json :=
  match res.body with
  | none => some (.str "null")
  | some text => errorMessage text

/-- The retry / refresh state machine of `call()` (client.ts lines
177-233), one fuel unit per physical attempt.  The four guards are tested
in source order; a failing `401` or `429` guard falls through to the later
tests, which for those statuses necessarily fail (`401`/`429` do not start
with the digit 5), landing in the message-extraction exit exactly as the
source's straight-line fall-through does. -/
def call (ap : AuthProvider) (opts : SpotifyClientOpts) (transport : Transport) :
    Nat → LoopSt → Option (CallOutcome × List Event)
  | 0, _ => none
  | Nat.succ fuel, st =>
    let idx := st.attemptIdx
    let res := transport idx
    let ev := Event.attempt ("Bearer " ++ st.accessToken) res.status
    if res.ok then
      some (.success res idx, [ev])
    else if res.status = 401 ∧ ap.isObj = true ∧ st.isTriedRefreshToken = false then
      let newTok := ap.refreshResult st.refreshIdx
      (call ap opts transport fuel
          { st with accessToken := newTok, isTriedRefreshToken := true,
                    attemptIdx := idx + 1, refreshIdx := st.refreshIdx + 1 }).map
        (fun r => (r.1, ev :: .refreshCall newTok :: r.2))
    else if res.status = 429 ∧ opts.retryOnRateLimit = true ∧
        truthyNum (jsNumber (headersGet res.headers "Retry-After")) = true then
      let k := (jsNumber (headersGet res.headers "Retry-After")).getD 0
      (call ap opts transport fuel { st with attemptIdx := idx + 1 }).map
        (fun r => (r.1, ev :: .sleepMs (k * 1000) :: r.2))
    else if statusStartsWith5 res.status = true ∧ st.retry5xx ≠ 0 then
      (call ap opts transport fuel
          { st with retry5xx := st.retry5xx - 1, attemptIdx := idx + 1 }).map
        (fun r => (r.1,
          ev :: ((if opts.retryDelayOn5xx ≠ 0 then [Event.sleepMs opts.retryDelayOn5xx] else [])
            ++ r.2)))
    else
      match res.body with
      | none => some (.thrown (some (.str "null")) res.status, [ev])
      | some text => some (.thrown (errorMessage text) res.status, [ev, .bodyText idx])

/-! ## Result handling and the full logical call -/

/-- The final result of one logical call (`SpotifyClient.fetch`):
* `okJson v` - resolved with the parsed body (`responseType = "json"`);
* `okVoid` - resolved with `undefined` (`responseType = "void"`);
* `spotifyError m s` - rejected with `new SpotifyError(m, s)`;
* `genericError m` - rejected with a plain `new Error(m)` (no status);
* `jsonError` - `res.json()` rejected because the body text is not JSON. -/
inductive FetchResult where
  | okJson (v : Json) : FetchResult
  | okVoid : FetchResult
  | spotifyError (message : Option Json) (status : Nat) : FetchResult
  | genericError (message : String) : FetchResult
  | jsonError : FetchResult

/-- Client.ts lines 235-243: handling of the response returned by `call()`
(`res` obtained at attempt `idx`), producing the final result and the
stream events it performs. -/
def handleResult (responseType : ExpectedResponse) (res : Response) (idx : Nat) :
    FetchResult × List Event :=
  match responseType with
  | .json =>
    match res.body with
    | none => (.genericError "Body not found", [])
    | some text =>
      match jsonParse text with
      | some v => (.okJson v, [.bodyJson idx])
      | none => (.jsonError, [.bodyJson idx])
  | .void =>
    match res.body with
    | some _ => (.okVoid, [.bodyCancel idx])
    | none => (.okVoid, [])

/-- The trace events recorded before the loop starts: for a dynamic
provider, the one `getToken()` invocation of client.ts line 174. -/
def initEvents : AuthProvider → List Event
  | .str _ => []
  | .obj p => [.getTokenCall (p.getToken 0)]

/-- One logical call: `SpotifyClient.fetch` (client.ts lines 150-243),
given the auth provider, the client options, the expected response shape
and the transport.  Produces the final result and the full event trace,
or `none` when the retry recursion does not terminate within `fuel`
physical attempts.  URL construction, query serialization and
request-body assembly (lines 157-162) involve no claim under
verification and are not modelled. -/
def fetchModel (ap : AuthProvider) (opts : SpotifyClientOpts)
    (responseType : ExpectedResponse) (transport : Transport) (fuel : Nat) :
    Option (FetchResult × List Event) :=
  match call ap opts transport fuel
      { accessToken := ap.initialToken, isTriedRefreshToken := false,
        retry5xx := opts.retryTimesOn5xx, attemptIdx := 0, refreshIdx := 0 } with
  | none => none
  | some (.thrown m s, evts) => some (.spotifyError m s, initEvents ap ++ evts)
  | some (.success res idx, evts) =>
    let h := handleResult responseType res idx
    some (h.1, initEvents ap ++ evts ++ h.2)

/-! ## Trace observations -/

/-- Number of physical attempts recorded in a trace. -/
def countAttempts : List Event → Nat
  | [] => 0
  | .attempt _ _ :: rest => countAttempts rest + 1
  | _ :: rest => countAttempts rest

/-- Number of `refreshToken()` invocations recorded in a trace. -/
def countRefresh : List Event → Nat
  | [] => 0
  | .refreshCall _ :: rest => countRefresh rest + 1
  | _ :: rest => countRefresh rest

/-- Number of `getToken()` invocations recorded in a trace. -/
def countGetToken : List Event → Nat
  | [] => 0
  | .getTokenCall _ :: rest => countGetToken rest + 1
  | _ :: rest => countGetToken rest

/-- Number of timed suspensions recorded in a trace. -/
def countSleeps : List Event → Nat
  | [] => 0
  | .sleepMs _ :: rest => countSleeps rest + 1
  | _ :: rest => countSleeps rest

/-- The timed suspensions of a trace, in order. -/
def sleepEvents (evts : List Event) : List Event :=
  evts.filter (fun e => match e with | .sleepMs _ => true | _ => false)

/-- Is the event a body-stream release (full read or explicit cancel)? -/
def isBodyEvent : Event → Bool
  | .bodyText _ | .bodyJson _ | .bodyCancel _ => true
  | _ => false

/-- Does the trace release (fully read or cancel) the body stream of the
response obtained at attempt `i`? -/
def releasesIdx (evts : List Event) (i : Nat) : Bool :=
  evts.any (fun e => match e with
    | .bodyText j | .bodyJson j | .bodyCancel j => j = i
    | _ => false)

/-- Every `attempt` event carries `"Bearer " ++ t` where `t` is the given
initial token up to the first `refreshCall`, and from then on the result
of the latest `refreshCall`. -/
def tokensOk (cur : String) : List Event → Bool
  | [] => true
  | .attempt h _ :: rest => (h = "Bearer " ++ cur) && tokensOk cur rest
  | .refreshCall t :: rest => tokensOk t rest
  | _ :: rest => tokensOk cur rest

/-! ## Interface declarations (claim C1) -/

/-- Member names of the `IAuthProvider` interface exported by the auth
module (src/unnamed/part_000 lines 74-86): `getAccessToken(forceRefresh?)
: Promise<string>` and `refresh(): Promise<AccessResponse>`. -/
def IAuthProviderMembers : List String :=
  ["getAccessToken", "refresh"]

/-- Provider members invoked by `SpotifyClient.fetch` on a dynamic auth
provider: `getToken()` (client.ts line 174, used synchronously) and
`refreshToken()` (client.ts line 192, awaited). -/
def clientConsumedAuthMembers : List String :=
  ["getToken", "refreshToken"]

/-! ## Closed-form traces for constant-5xx transports -/

/-- The event trace produced by `call` from attempt index `idx` when every
response has the same 5xx status `s`, the per-retry delay is `d`, and the
remaining retry budget is the last argument. -/
def const5xxEvts (tok : String) (s d : Nat) (transport : Transport) (idx : Nat) :
    Nat → List Event
  | 0 => .attempt ("Bearer " ++ tok) s ::
      (match (transport idx).body with
       | none => []
       | some _ => [.bodyText idx])
  | Nat.succ n => .attempt ("Bearer " ++ tok) s ::
      ((if d ≠ 0 then [Event.sleepMs d] else []) ++ const5xxEvts tok s d transport (idx + 1) n)

/-! ## Concrete scenarios used by the closed theorems -/

/-- A dynamic provider whose current token and refresh result are fixed. -/
def demoProvider : TokenProvider :=
  ⟨fun _ => "t0", fun _ => "t1"⟩

/-- A transport answering 401 (with no body) to every attempt. -/
def always401 : Transport := fun _ => ⟨401, [], none⟩

/-- A transport answering 401 first and then 200 with an empty-object body. -/
def t401then200 : Transport := fun i =>
  if i = 0 then ⟨401, [], none⟩ else ⟨200, [], some "\x7b\x7d"⟩

/-- A transport answering 503 with a plain-text body to every attempt. -/
def always503 : Transport := fun _ => ⟨503, [], some "Internal Server Error"⟩

/-- A transport answering 429 with `Retry-After: 2` first and then 200. -/
def t429then200 : Transport := fun i =>
  if i = 0 then ⟨429, [("Retry-After", "2")], some "slow down"⟩
  else ⟨200, [], some "\x7b\x7d"⟩

/-- A transport answering 429 with `Retry-After: 1` to every attempt. -/
def always429 : Transport := fun _ => ⟨429, [("Retry-After", "1")], some "slow down"⟩

/-- A transport answering 429 whose `Retry-After` header is the
non-numeric text `"abc"`. -/
def t429abc : Transport := fun _ => ⟨429, [("Retry-After", "abc")], some "slow down"⟩

/-- A provider whose `getToken` result changes between its invocations:
the first invocation yields `"t0"`, later ones `"t1"`. -/
def swapProvider : TokenProvider :=
  ⟨fun i => if i = 0 then "t0" else "t1", fun _ => "r"⟩

/-- A transport answering 503 (body present) first and then 200 (no body). -/
def t503then200 : Transport := fun i =>
  if i = 0 then ⟨503, [], some "oops"⟩ else ⟨200, [], none⟩

/-- A transport answering 304 with a body that parses as JSON. -/
def t304 : Transport := fun _ => ⟨304, [], some "\x7b\"a\":1\x7d"⟩

/-- A transport answering 418 with the body `{"error":{}}`: valid JSON
whose `error` member is an object without a `message` member. -/
def t418 : Transport := fun _ => ⟨418, [], some "\x7b\"error\":\x7b\x7d\x7d"⟩

/-- A transport answering 404 with the standard error envelope. -/
def t404 : Transport := fun _ =>
  ⟨404, [], some "\x7b\"error\":\x7b\"message\":\"Not found\",\"status\":404\x7d\x7d"⟩

/-! ## Helper lemmas: decimal leading digit and status classification -/

theorem msdAux_small (fuel n : Nat) (h : n < 10) : msdAux fuel n = n := by
  cases fuel with
  | zero => rfl
  | succ m => simp [msdAux, h]

theorem statusStartsWith5_of_5xx (s : Nat) (h : 500 ≤ s) (h' : s ≤ 599) :
    statusStartsWith5 s = true := by
  obtain ⟨m, rfl⟩ : ∃ m, s = m + 1 := ⟨s - 1, by omega⟩
  have h1 : ¬ m + 1 < 10 := by omega
  obtain ⟨m', rfl⟩ : ∃ m', m = m' + 1 := ⟨m - 1, by omega⟩
  have h2 : ¬ (m' + 1 + 1) / 10 < 10 := by omega
  have h3 : (m' + 1 + 1) / 10 / 10 = 5 := by omega
  simp only [statusStartsWith5, msdAux, h1, if_false, h2]
  rw [h3, msdAux_small _ 5 (by omega)]
  simp

theorem not_ok_of_ge_300 (r : Response) (h : 300 ≤ r.status) : r.ok = false := by
  simp only [Response.ok, decide_eq_false_iff_not]
  omega

/-! ## Helper lemmas: trace observations under concatenation -/

theorem countRefresh_append (a b : List Event) :
    countRefresh (a ++ b) = countRefresh a + countRefresh b := by
  induction a with
  | nil => simp [countRefresh]
  | cons e rest ih => cases e <;> simp [countRefresh, ih] <;> omega

theorem countAttempts_append (a b : List Event) :
    countAttempts (a ++ b) = countAttempts a + countAttempts b := by
  induction a with
  | nil => simp [countAttempts]
  | cons e rest ih => cases e <;> simp [countAttempts, ih] <;> omega

theorem countGetToken_append (a b : List Event) :
    countGetToken (a ++ b) = countGetToken a + countGetToken b := by
  induction a with
  | nil => simp [countGetToken]
  | cons e rest ih => cases e <;> simp [countGetToken, ih] <;> omega

theorem sleepEvents_append (a b : List Event) :
    sleepEvents (a ++ b) = sleepEvents a ++ sleepEvents b := by
  simp [sleepEvents]

/-- Appending a body-stream event to a trace does not affect the
token-consistency check. -/
theorem tokensOk_append_body (e : Event) (he : isBodyEvent e = true) :
    ∀ (cur : String) (xs : List Event),
      tokensOk cur (xs ++ [e]) = tokensOk cur xs := by
  intro cur xs
  induction xs generalizing cur with
  | nil => cases e <;> simp_all [tokensOk, isBodyEvent]
  | cons x rest ih => cases x <;> simp [tokensOk, ih]

/-! ## Invariants of the call loop -/

/-- However many physical attempts a logical call makes, the loop invokes
`refreshToken()` at most once (and never once the refresh flag is set). -/
theorem call_countRefresh_le (ap : AuthProvider) (opts : SpotifyClientOpts)
    (transport : Transport) :
    ∀ (fuel : Nat) (st : LoopSt) (o : CallOutcome) (evts : List Event),
      call ap opts transport fuel st = some (o, evts) →
      countRefresh evts ≤ (if st.isTriedRefreshToken then 0 else 1) := by
  intro fuel
  induction fuel with
  | zero => intro st o evts h; simp [call] at h
  | succ n ih =>
    intro st o evts h
    simp only [call] at h
    split at h
    · rw [Option.some.injEq, Prod.mk.injEq] at h
      obtain ⟨-, rfl⟩ := h
      simp [countRefresh]
    · split at h
      · rename_i hg
        rw [Option.map_eq_some'] at h
        obtain ⟨⟨o', evts'⟩, hrec, heq⟩ := h
        rw [Prod.mk.injEq] at heq
        obtain ⟨rfl, rfl⟩ := heq
        have hle := ih _ _ _ hrec
        simp only [if_true, Nat.le_zero] at hle
        rw [hg.2.2]
        simp only [Bool.false_eq_true, if_false, countRefresh]
        omega
      · split at h
        · rw [Option.map_eq_some'] at h
          obtain ⟨⟨o', evts'⟩, hrec, heq⟩ := h
          rw [Prod.mk.injEq] at heq
          obtain ⟨rfl, rfl⟩ := heq
          have hle := ih _ _ _ hrec
          simpa [countRefresh] using hle
        · split at h
          · rw [Option.map_eq_some'] at h
            obtain ⟨⟨o', evts'⟩, hrec, heq⟩ := h
            rw [Prod.mk.injEq] at heq
            obtain ⟨rfl, rfl⟩ := heq
            have hle := ih _ _ _ hrec
            simp only [countRefresh, countRefresh_append]
            split <;> simpa [countRefresh] using hle
          · split at h <;>
            · rw [Option.some.injEq, Prod.mk.injEq] at h
              obtain ⟨-, rfl⟩ := h
              simp [countRefresh]

/-- Every attempt of a logical call carries the token held in the loop
state: the initial token up to the refresh, the refreshed token after. -/
theorem call_tokensOk (ap : AuthProvider) (opts : SpotifyClientOpts)
    (transport : Transport) :
    ∀ (fuel : Nat) (st : LoopSt) (o : CallOutcome) (evts : List Event),
      call ap opts transport fuel st = some (o, evts) →
      tokensOk st.accessToken evts = true := by
  intro fuel
  induction fuel with
  | zero => intro st o evts h; simp [call] at h
  | succ n ih =>
    intro st o evts h
    simp only [call] at h
    split at h
    · rw [Option.some.injEq, Prod.mk.injEq] at h
      obtain ⟨-, rfl⟩ := h
      simp [tokensOk]
    · split at h
      · rw [Option.map_eq_some'] at h
        obtain ⟨⟨o', evts'⟩, hrec, heq⟩ := h
        rw [Prod.mk.injEq] at heq
        obtain ⟨rfl, rfl⟩ := heq
        have htk := ih _ _ _ hrec
        simp only [tokensOk]
        simpa [tokensOk] using htk
      · split at h
        · rw [Option.map_eq_some'] at h
          obtain ⟨⟨o', evts'⟩, hrec, heq⟩ := h
          rw [Prod.mk.injEq] at heq
          obtain ⟨rfl, rfl⟩ := heq
          have htk := ih _ _ _ hrec
          simpa [tokensOk] using htk
        · split at h
          · rw [Option.map_eq_some'] at h
            obtain ⟨⟨o', evts'⟩, hrec, heq⟩ := h
            rw [Prod.mk.injEq] at heq
            obtain ⟨rfl, rfl⟩ := heq
            have htk := ih _ _ _ hrec
            rcases Classical.em (opts.retryDelayOn5xx = 0) with hd | hd <;>
              simp [hd, tokensOk, htk]
          · split at h <;>
            · rw [Option.some.injEq, Prod.mk.injEq] at h
              obtain ⟨-, rfl⟩ := h
              simp [tokensOk]

/-- The loop itself never invokes `getToken()` (the one resolution happens
before the loop starts). -/
theorem call_countGetToken (ap : AuthProvider) (opts : SpotifyClientOpts)
    (transport : Transport) :
    ∀ (fuel : Nat) (st : LoopSt) (o : CallOutcome) (evts : List Event),
      call ap opts transport fuel st = some (o, evts) →
      countGetToken evts = 0 := by
  intro fuel
  induction fuel with
  | zero => intro st o evts h; simp [call] at h
  | succ n ih =>
    intro st o evts h
    simp only [call] at h
    split at h
    · rw [Option.some.injEq, Prod.mk.injEq] at h
      obtain ⟨-, rfl⟩ := h
      simp [countGetToken]
    · split at h
      · rw [Option.map_eq_some'] at h
        obtain ⟨⟨o', evts'⟩, hrec, heq⟩ := h
        rw [Prod.mk.injEq] at heq
        obtain ⟨rfl, rfl⟩ := heq
        simpa [countGetToken] using ih _ _ _ hrec
      · split at h
        · rw [Option.map_eq_some'] at h
          obtain ⟨⟨o', evts'⟩, hrec, heq⟩ := h
          rw [Prod.mk.injEq] at heq
          obtain ⟨rfl, rfl⟩ := heq
          simpa [countGetToken] using ih _ _ _ hrec
        · split at h
          · rw [Option.map_eq_some'] at h
            obtain ⟨⟨o', evts'⟩, hrec, heq⟩ := h
            rw [Prod.mk.injEq] at heq
            obtain ⟨rfl, rfl⟩ := heq
            rcases Classical.em (opts.retryDelayOn5xx = 0) with hd | hd <;>
              simpa [hd, countGetToken] using ih _ _ _ hrec
          · split at h <;>
            · rw [Option.some.injEq, Prod.mk.injEq] at h
              obtain ⟨-, rfl⟩ := h
              simp [countGetToken]

/-- The loop returns only `ok` responses; when it throws, the thrown
status and message come from the LAST response obtained, and the only
body-stream event of the loop trace is the full read of that last
response's body on the terminal error path (absent when its body is
`null`).  Responses abandoned by retry branches get no body event. -/
theorem call_last (ap : AuthProvider) (opts : SpotifyClientOpts)
    (transport : Transport) :
    ∀ (fuel : Nat) (st : LoopSt) (o : CallOutcome) (evts : List Event),
      call ap opts transport fuel st = some (o, evts) →
      1 ≤ countAttempts evts ∧
      (∀ res i, o = .success res i →
        i = st.attemptIdx + countAttempts evts - 1 ∧ res = transport i ∧ res.ok = true ∧
        evts.filter isBodyEvent = []) ∧
      (∀ m s, o = .thrown m s →
        s = (transport (st.attemptIdx + countAttempts evts - 1)).status ∧
        m = terminalMessage (transport (st.attemptIdx + countAttempts evts - 1)) ∧
        (transport (st.attemptIdx + countAttempts evts - 1)).ok = false ∧
        evts.filter isBodyEvent =
          (match (transport (st.attemptIdx + countAttempts evts - 1)).body with
           | none => []
           | some _ => [.bodyText (st.attemptIdx + countAttempts evts - 1)])) := by
  intro fuel
  induction fuel with
  | zero => intro st o evts h; simp [call] at h
  | succ n ih =>
    intro st o evts h
    simp only [call] at h
    split at h
    · rename_i hok
      rw [Option.some.injEq, Prod.mk.injEq] at h
      obtain ⟨rfl, rfl⟩ := h
      refine ⟨by simp [countAttempts], ?_, ?_⟩
      · intro res i hsi
        rw [CallOutcome.success.injEq] at hsi
        obtain ⟨rfl, rfl⟩ := hsi
        simp [countAttempts, List.filter, isBodyEvent, hok]
      · intro m s hsi; simp at hsi
    · split at h
      · rw [Option.map_eq_some'] at h
        obtain ⟨⟨o', evts'⟩, hrec, heq⟩ := h
        rw [Prod.mk.injEq] at heq
        obtain ⟨rfl, rfl⟩ := heq
        obtain ⟨hone, hsucc, hthr⟩ := ih _ _ _ hrec
        simp only [countAttempts, List.filter, isBodyEvent]
        have harith : st.attemptIdx + (countAttempts evts' + 1) - 1 =
            st.attemptIdx + 1 + countAttempts evts' - 1 := by omega
        rw [harith]
        exact ⟨by omega, fun res i hsi => hsucc res i hsi, fun m s hsi => hthr m s hsi⟩
      · split at h
        · rw [Option.map_eq_some'] at h
          obtain ⟨⟨o', evts'⟩, hrec, heq⟩ := h
          rw [Prod.mk.injEq] at heq
          obtain ⟨rfl, rfl⟩ := heq
          obtain ⟨hone, hsucc, hthr⟩ := ih _ _ _ hrec
          simp only [countAttempts, List.filter, isBodyEvent]
          have harith : st.attemptIdx + (countAttempts evts' + 1) - 1 =
              st.attemptIdx + 1 + countAttempts evts' - 1 := by omega
          rw [harith]
          exact ⟨by omega, fun res i hsi => hsucc res i hsi, fun m s hsi => hthr m s hsi⟩
        · split at h
          · rw [Option.map_eq_some'] at h
            obtain ⟨⟨o', evts'⟩, hrec, heq⟩ := h
            rw [Prod.mk.injEq] at heq
            obtain ⟨rfl, rfl⟩ := heq
            obtain ⟨hone, hsucc, hthr⟩ := ih _ _ _ hrec
            rcases Classical.em (opts.retryDelayOn5xx = 0) with hd | hd
            · simp only [hd, ne_eq, not_true_eq_false, if_false, List.nil_append,
                countAttempts, List.filter, isBodyEvent]
              have harith : st.attemptIdx + (countAttempts evts' + 1) - 1 =
                  st.attemptIdx + 1 + countAttempts evts' - 1 := by omega
              rw [harith]
              exact ⟨by omega, fun res i hsi => hsucc res i hsi, fun m s hsi => hthr m s hsi⟩
            · simp only [hd, ne_eq, not_false_eq_true, if_true, List.cons_append,
                List.nil_append, countAttempts, List.filter, isBodyEvent]
              have harith : st.attemptIdx + (countAttempts evts' + 1) - 1 =
                  st.attemptIdx + 1 + countAttempts evts' - 1 := by omega
              rw [harith]
              exact ⟨by omega, fun res i hsi => hsucc res i hsi, fun m s hsi => hthr m s hsi⟩
          · rename_i hok hg1 hg2 hg3
            split at h
            · rename_i hbody
              rw [Option.some.injEq, Prod.mk.injEq] at h
              obtain ⟨rfl, rfl⟩ := h
              refine ⟨by simp [countAttempts], ?_, ?_⟩
              · intro res i hsi; simp at hsi
              · intro m s hsi
                rw [CallOutcome.thrown.injEq] at hsi
                obtain ⟨rfl, rfl⟩ := hsi
                simp only [countAttempts, List.filter, isBodyEvent]
                have hidx : st.attemptIdx + (0 + 1) - 1 = st.attemptIdx := by omega
                rw [hidx]
                refine ⟨rfl, by simp [terminalMessage, hbody], by simpa using hok, ?_⟩
                simp [hbody]
            · rename_i text hbody
              rw [Option.some.injEq, Prod.mk.injEq] at h
              obtain ⟨rfl, rfl⟩ := h
              refine ⟨by simp [countAttempts], ?_, ?_⟩
              · intro res i hsi; simp at hsi
              · intro m s hsi
                rw [CallOutcome.thrown.injEq] at hsi
                obtain ⟨rfl, rfl⟩ := hsi
                simp only [countAttempts, List.filter, isBodyEvent]
                have hidx : st.attemptIdx + (0 + 1) - 1 = st.attemptIdx := by omega
                rw [hidx]
                refine ⟨rfl, by simp [terminalMessage, hbody], by simpa using hok, ?_⟩
                simp [hbody]



theorem const5xxEvts_countAttempts (tok : String) (s d : Nat) (transport : Transport) :
    ∀ (n idx : Nat), countAttempts (const5xxEvts tok s d transport idx n) = n + 1 := by
  intro n
  induction n with
  | zero =>
    intro idx
    cases hb : (transport idx).body <;> simp [const5xxEvts, hb, countAttempts]
  | succ m ih =>
    intro idx
    by_cases hd : d = 0
    · subst hd
      simp [const5xxEvts, countAttempts, countAttempts_append, ih]
    · simp [const5xxEvts, hd, countAttempts, countAttempts_append, ih]

theorem const5xxEvts_sleepEvents (tok : String) (s d : Nat) (transport : Transport) :
    ∀ (n idx : Nat), sleepEvents (const5xxEvts tok s d transport idx n) =
      if d = 0 then [] else List.replicate n (.sleepMs d) := by
  intro n
  induction n with
  | zero =>
    intro idx
    cases hb : (transport idx).body <;>
      rcases Classical.em (d = 0) with hd | hd <;>
        simp [const5xxEvts, hb, hd, sleepEvents]
  | succ m ih =>
    intro idx
    by_cases hd : d = 0
    · subst hd
      simp only [const5xxEvts, ne_eq, not_true_eq_false, if_false, List.nil_append]
      simp [sleepEvents, if_pos rfl] at ih ⊢
      exact ih (idx + 1)
    · simp only [const5xxEvts, ne_eq, hd, not_false_eq_true, if_true, List.cons_append,
        List.nil_append]
      simp [sleepEvents, hd, List.replicate_succ] at ih ⊢
      exact ih (idx + 1)

theorem call_const5xx (ap : AuthProvider) (opts : SpotifyClientOpts)
    (transport : Transport) (s : Nat)
    (hs5 : statusStartsWith5 s = true) (h401 : s ≠ 401) (h429 : s ≠ 429)
    (hok : ∀ i, (transport i).ok = false) (hT : ∀ i, (transport i).status = s) :
    ∀ (n : Nat) (st : LoopSt) (fuel : Nat), st.retry5xx = n → n + 1 ≤ fuel →
      call ap opts transport fuel st =
        some (.thrown (terminalMessage (transport (st.attemptIdx + n))) s,
          const5xxEvts st.accessToken s opts.retryDelayOn5xx transport st.attemptIdx n) := by
  intro n
  induction n with
  | zero =>
    intro st fuel hb hf
    obtain ⟨f, rfl⟩ : ∃ f, fuel = f + 1 := ⟨fuel - 1, by omega⟩
    simp only [call, hok, hT, Bool.false_eq_true, if_false]
    rw [if_neg (by simp [h401]), if_neg (by simp [h429]), if_neg (by simp [hb])]
    cases hbody : (transport st.attemptIdx).body <;>
      simp [const5xxEvts, hbody, terminalMessage, hT]
  | succ m ih =>
    intro st fuel hb hf
    obtain ⟨f, rfl⟩ : ∃ f, fuel = f + 1 := ⟨fuel - 1, by omega⟩
    simp only [call, hok, hT, Bool.false_eq_true, if_false]
    rw [if_neg (by simp [h401]), if_neg (by simp [h429]),
      if_pos (by simp [hs5, hb] : statusStartsWith5 s = true ∧ ¬ st.retry5xx = 0)]
    rw [ih { st with retry5xx := st.retry5xx - 1, attemptIdx := st.attemptIdx + 1 }
      f (by simp [hb]) (by omega)]
    simp only [Option.map_some']
    have harith : st.attemptIdx + 1 + m = st.attemptIdx + (m + 1) := by omega
    simp [const5xxEvts, harith]



theorem sleepEvents_getTokenCall (t : String) (l : List Event) :
    sleepEvents (.getTokenCall t :: l) = sleepEvents l := by
  simp [sleepEvents]

theorem countAttempts_getTokenCall (t : String) (l : List Event) :
    countAttempts (.getTokenCall t :: l) = countAttempts l := by
  simp [countAttempts]

theorem call_all401 (p : TokenProvider) (opts : SpotifyClientOpts)
    (transport : Transport) (hT : ∀ i, (transport i).status = 401) :
    ∀ (st : LoopSt) (fuel : Nat), st.isTriedRefreshToken = false → 2 ≤ fuel →
      call (.obj p) opts transport fuel st =
        some (.thrown (terminalMessage (transport (st.attemptIdx + 1))) 401,
          .attempt ("Bearer " ++ st.accessToken) 401 ::
          .refreshCall (p.refreshToken st.refreshIdx) ::
          .attempt ("Bearer " ++ p.refreshToken st.refreshIdx) 401 ::
          (match (transport (st.attemptIdx + 1)).body with
           | none => []
           | some _ => [.bodyText (st.attemptIdx + 1)])) := by
  have hok : ∀ i, (transport i).ok = false := fun i => by
    simp [Response.ok, hT i]
  intro st fuel htr hf
  obtain ⟨f, rfl⟩ : ∃ f, fuel = f + 2 := ⟨fuel - 2, by omega⟩
  have h5f : statusStartsWith5 401 = false := by decide
  cases hbody : (transport (st.attemptIdx + 1)).body <;>
    simp [call, hok, hT, htr, h5f, AuthProvider.isObj, AuthProvider.refreshResult,
      terminalMessage, hbody]

/-- Claim C5: with a configured server-error retry count `n` and a
transport answering the same 5xx status `s` to every attempt, exactly
`n + 1` physical attempts occur, before each of the `n` retries the
executor sleeps for the configured retry delay exactly when it is
non-zero, and the call fails with a SpotifyError carrying `s`. -/
theorem c5_server_error_retries (ap : AuthProvider) (opts : SpotifyClientOpts)
    (rt : ExpectedResponse) (transport : Transport) (s n fuel : Nat)
    (h5 : 500 ≤ s) (h5' : s ≤ 599) (hT : ∀ i, (transport i).status = s)
    (hn : opts.retryTimesOn5xx = n) (hf : n + 1 ≤ fuel) :
    (fetchModel ap opts rt transport fuel).map
        (fun r => (r.1, countAttempts r.2, sleepEvents r.2)) =
      some (.spotifyError (terminalMessage (transport n)) s, n + 1,
        if opts.retryDelayOn5xx = 0 then []
        else List.replicate n (.sleepMs opts.retryDelayOn5xx)) := by
  have hok : ∀ i, (transport i).ok = false := fun i =>
    not_ok_of_ge_300 _ (by rw [hT i]; omega)
  have hc := call_const5xx ap opts transport s
    (statusStartsWith5_of_5xx s h5 h5') (by omega) (by omega) hok hT
    n { accessToken := ap.initialToken, isTriedRefreshToken := false,
        retry5xx := opts.retryTimesOn5xx, attemptIdx := 0, refreshIdx := 0 }
    fuel (by simpa using hn) hf
  simp only [fetchModel]
  rw [hc]
  simp only [Option.map_some']
  cases ap with
  | str tok =>
    simp only [initEvents, List.nil_append, AuthProvider.initialToken]
    rw [const5xxEvts_countAttempts, const5xxEvts_sleepEvents, Nat.zero_add]
  | obj p =>
    simp only [initEvents, List.singleton_append, AuthProvider.initialToken,
      countAttempts_getTokenCall, sleepEvents_getTokenCall]
    rw [const5xxEvts_countAttempts, const5xxEvts_sleepEvents, Nat.zero_add]



theorem call_429_wait_step (ap : AuthProvider) (opts : SpotifyClientOpts)
    (transport : Transport) (st : LoopSt) (fuel k : Nat)
    (hflag : opts.retryOnRateLimit = true)
    (hst : (transport st.attemptIdx).status = 429)
    (hra : jsNumber (headersGet (transport st.attemptIdx).headers "Retry-After") =
      some (k + 1)) :
    call ap opts transport (fuel + 1) st =
      (call ap opts transport fuel { st with attemptIdx := st.attemptIdx + 1 }).map
        (fun r => (r.1, .attempt ("Bearer " ++ st.accessToken) 429 ::
          .sleepMs ((k + 1) * 1000) :: r.2)) := by
  have hok : (transport st.attemptIdx).ok = false :=
    not_ok_of_ge_300 _ (by omega)
  simp [call, hok, hst, hflag, hra, truthyNum]

theorem call_429_forever (ap : AuthProvider) (opts : SpotifyClientOpts)
    (transport : Transport) (hflag : opts.retryOnRateLimit = true)
    (hT : ∀ i, (transport i).status = 429 ∧
      ∃ k, jsNumber (headersGet (transport i).headers "Retry-After") = some (k + 1)) :
    ∀ (fuel : Nat) (st : LoopSt), call ap opts transport fuel st = none := by
  intro fuel
  induction fuel with
  | zero => intro st; rfl
  | succ n ih =>
    intro st
    obtain ⟨k, hk⟩ := (hT st.attemptIdx).2
    rw [call_429_wait_step ap opts transport st n k hflag (hT st.attemptIdx).1 hk, ih]
    rfl

theorem call_429_zero_step (ap : AuthProvider) (opts : SpotifyClientOpts)
    (transport : Transport) (st : LoopSt) (fuel : Nat)
    (hst : (transport st.attemptIdx).status = 429)
    (hra : jsNumber (headersGet (transport st.attemptIdx).headers "Retry-After") = some 0) :
    call ap opts transport (fuel + 1) st =
      some (.thrown (terminalMessage (transport st.attemptIdx)) 429,
        .attempt ("Bearer " ++ st.accessToken) 429 ::
          (match (transport st.attemptIdx).body with
           | none => []
           | some _ => [.bodyText st.attemptIdx])) := by
  have hok : (transport st.attemptIdx).ok = false :=
    not_ok_of_ge_300 _ (by omega)
  have h5f : statusStartsWith5 429 = false := by decide
  cases hbody : (transport st.attemptIdx).body <;>
    simp [call, hok, hst, hra, truthyNum, h5f, terminalMessage, hbody]

theorem call_terminal_step (ap : AuthProvider) (opts : SpotifyClientOpts)
    (transport : Transport) (st : LoopSt) (fuel : Nat)
    (h1 : (transport st.attemptIdx).ok = false)
    (h2 : ¬((transport st.attemptIdx).status = 401 ∧ ap.isObj = true ∧
      st.isTriedRefreshToken = false))
    (h3 : ¬((transport st.attemptIdx).status = 429 ∧ opts.retryOnRateLimit = true ∧
      truthyNum (jsNumber (headersGet (transport st.attemptIdx).headers "Retry-After")) =
        true))
    (h4 : ¬(statusStartsWith5 (transport st.attemptIdx).status = true ∧
      st.retry5xx ≠ 0)) :
    call ap opts transport (fuel + 1) st =
      some (.thrown (terminalMessage (transport st.attemptIdx))
          (transport st.attemptIdx).status,
        .attempt ("Bearer " ++ st.accessToken) (transport st.attemptIdx).status ::
          (match (transport st.attemptIdx).body with
           | none => []
           | some _ => [.bodyText st.attemptIdx])) := by
  cases hbody : (transport st.attemptIdx).body <;>
    simp [call, h1, h2, h3, h4, terminalMessage, hbody]



theorem handleResult_counts (rt : ExpectedResponse) (res : Response) (i : Nat) :
    countRefresh (handleResult rt res i).2 = 0 ∧
    countGetToken (handleResult rt res i).2 = 0 ∧
    countAttempts (handleResult rt res i).2 = 0 := by
  cases rt <;> cases hb : res.body <;>
    simp [handleResult, hb, countRefresh, countGetToken, countAttempts]
  case json.some text =>
    cases hj : jsonParse text <;>
      simp [hj, countRefresh, countGetToken, countAttempts]

theorem initEvents_counts (ap : AuthProvider) :
    countRefresh (initEvents ap) = 0 ∧
    countAttempts (initEvents ap) = 0 ∧
    countGetToken (initEvents ap) = (if ap.isObj then 1 else 0) := by
  cases ap <;>
    simp [initEvents, AuthProvider.isObj, countRefresh, countAttempts, countGetToken]

theorem fetchModel_cases (ap : AuthProvider) (opts : SpotifyClientOpts)
    (rt : ExpectedResponse) (transport : Transport) (fuel : Nat)
    (r : FetchResult) (evts : List Event)
    (h : fetchModel ap opts rt transport fuel = some (r, evts)) :
    ∃ o levts, call ap opts transport fuel
        { accessToken := ap.initialToken, isTriedRefreshToken := false,
          retry5xx := opts.retryTimesOn5xx, attemptIdx := 0, refreshIdx := 0 } =
        some (o, levts) ∧
      ((∃ m s, o = .thrown m s ∧ r = .spotifyError m s ∧
          evts = initEvents ap ++ levts) ∨
       (∃ res i, o = .success res i ∧ r = (handleResult rt res i).1 ∧
          evts = initEvents ap ++ levts ++ (handleResult rt res i).2)) := by
  simp only [fetchModel] at h
  cases hc : call ap opts transport fuel
      { accessToken := ap.initialToken, isTriedRefreshToken := false,
        retry5xx := opts.retryTimesOn5xx, attemptIdx := 0, refreshIdx := 0 } with
  | none => rw [hc] at h; simp at h
  | some pair =>
    obtain ⟨o, levts⟩ := pair
    rw [hc] at h
    refine ⟨o, levts, rfl, ?_⟩
    cases o with
    | thrown m s =>
      simp only [Option.some.injEq, Prod.mk.injEq] at h
      exact Or.inl ⟨m, s, rfl, h.1.symm, h.2.symm⟩
    | success res i =>
      simp only [Option.some.injEq, Prod.mk.injEq] at h
      exact Or.inr ⟨res, i, rfl, h.1.symm, h.2.symm⟩



theorem handleResult_shape (rt : ExpectedResponse) (res : Response) (i : Nat) :
    (handleResult rt res i).2 = [] ∨
    ∃ e, (handleResult rt res i).2 = [e] ∧ isBodyEvent e = true := by
  cases rt <;> cases hb : res.body <;> simp [handleResult, hb, isBodyEvent]
  case json.some text =>
    cases hj : jsonParse text <;> simp [hj, isBodyEvent]

theorem handleResult_release (rt : ExpectedResponse) (res : Response) (i : Nat) :
    (res.body = none → (handleResult rt res i).2 = []) ∧
    (res.body ≠ none → releasesIdx (handleResult rt res i).2 i = true) ∧
    (∀ j, releasesIdx (handleResult rt res i).2 j = true → j = i ∧ res.body ≠ none) := by
  cases rt <;> cases hb : res.body <;> simp [handleResult, hb, releasesIdx]
  case json.some text =>
    cases hj : jsonParse text <;> simp [hj, releasesIdx]

theorem releasesIdx_append (a b : List Event) (j : Nat) :
    releasesIdx (a ++ b) j = (releasesIdx a j || releasesIdx b j) := by
  simp [releasesIdx]

theorem releasesIdx_filter (l : List Event) (j : Nat) :
    releasesIdx (l.filter isBodyEvent) j = releasesIdx l j := by
  induction l with
  | nil => rfl
  | cons e rest ih => cases e <;> simp [releasesIdx, isBodyEvent] at ih ⊢ <;> simp [ih]

theorem releasesIdx_initEvents (ap : AuthProvider) (j : Nat) :
    releasesIdx (initEvents ap) j = false := by
  cases ap <;> simp [initEvents, releasesIdx]

theorem tokensOk_append_handle (cur : String) (xs : List Event)
    (rt : ExpectedResponse) (res : Response) (i : Nat) :
    tokensOk cur (xs ++ (handleResult rt res i).2) = tokensOk cur xs := by
  rcases handleResult_shape rt res i with hs | ⟨e, hs, he⟩
  · rw [hs, List.append_nil]
  · rw [hs, tokensOk_append_body e he]



/-- Claim C2: every logical call performs at most one token refresh, and
with a dynamic provider and a transport answering 401 to every attempt,
exactly one `refreshToken()` call occurs, exactly two physical attempts
are made, and the call fails with a SpotifyError of status 401. -/
theorem c2_at_most_one_refresh (ap : AuthProvider) (opts : SpotifyClientOpts)
    (rt : ExpectedResponse) (transport : Transport) (fuel : Nat) :
    (∀ r evts, fetchModel ap opts rt transport fuel = some (r, evts) →
      countRefresh evts ≤ 1) ∧
    (∀ p, ap = .obj p → (∀ i, (transport i).status = 401) → 2 ≤ fuel →
      (fetchModel ap opts rt transport fuel).map
          (fun r => (r.1, countRefresh r.2, countAttempts r.2)) =
        some (.spotifyError (terminalMessage (transport 1)) 401, 1, 2)) := by
  constructor
  · intro r evts h
    obtain ⟨o, levts, hc, hcase⟩ := fetchModel_cases ap opts rt transport fuel r evts h
    have hle := call_countRefresh_le ap opts transport fuel _ _ _ hc
    simp only [if_false, Bool.false_eq_true] at hle
    rcases hcase with ⟨m, s, -, -, rfl⟩ | ⟨res, i, -, -, rfl⟩
    · rw [countRefresh_append, (initEvents_counts ap).1]
      omega
    · rw [countRefresh_append, countRefresh_append, (initEvents_counts ap).1,
        (handleResult_counts rt res i).1]
      omega
  · rintro p rfl hT hf
    have hc := call_all401 p opts transport hT
      { accessToken := (AuthProvider.obj p).initialToken, isTriedRefreshToken := false,
        retry5xx := opts.retryTimesOn5xx, attemptIdx := 0, refreshIdx := 0 }
      fuel rfl hf
    simp only [fetchModel]
    rw [hc]
    simp only [Option.map_some']
    cases hb : (transport (0 + 1)).body <;>
      simp [hb, initEvents, countRefresh, countAttempts, AuthProvider.initialToken]

/-- Claim C3 (amended): the token is resolved from the Token Source
exactly once per logical call with a dynamic provider (never for a static
token), and the Authorization header of every physical attempt is
`"Bearer " ++ t` where `t` is that initially resolved token up to the
401-refresh (if any) and the refresh result afterwards; a token swapped
inside the provider between attempts is not picked up. -/
theorem c3_token_resolved_once (ap : AuthProvider) (opts : SpotifyClientOpts)
    (rt : ExpectedResponse) (transport : Transport) (fuel : Nat) :
    ∀ r evts, fetchModel ap opts rt transport fuel = some (r, evts) →
      countGetToken evts = (if ap.isObj then 1 else 0) ∧
      tokensOk ap.initialToken evts = true := by
  intro r evts h
  obtain ⟨o, levts, hc, hcase⟩ := fetchModel_cases ap opts rt transport fuel r evts h
  have hg := call_countGetToken ap opts transport fuel _ _ _ hc
  have htk := call_tokensOk ap opts transport fuel _ _ _ hc
  rcases hcase with ⟨m, s, -, -, rfl⟩ | ⟨res, i, -, -, rfl⟩
  · constructor
    · rw [countGetToken_append, (initEvents_counts ap).2.2, hg]
      omega
    · cases ap <;> simpa [initEvents, tokensOk] using htk
  · constructor
    · rw [countGetToken_append, countGetToken_append, (initEvents_counts ap).2.2,
        hg, (handleResult_counts rt res i).2.1]
      omega
    · rw [List.append_assoc, ← List.append_assoc _ levts _]
      cases ap <;>
        simpa [initEvents, tokensOk, tokensOk_append_handle] using htk

/-- Claim C9 (amended): only the response that ends the loop has its body
stream handled: when the last response carries a body it is released
(fully read by the error path or `res.json()`, or cancelled on the
discard path), and every release event of the trace refers to that last
attempt - responses abandoned by the retry branches are never released. -/
theorem c9_last_stream_released (ap : AuthProvider) (opts : SpotifyClientOpts)
    (rt : ExpectedResponse) (transport : Transport) (fuel : Nat) :
    ∀ r evts, fetchModel ap opts rt transport fuel = some (r, evts) →
      ((transport (countAttempts evts - 1)).body ≠ none →
        releasesIdx evts (countAttempts evts - 1) = true) ∧
      (∀ j, releasesIdx evts j = true →
        j = countAttempts evts - 1 ∧ (transport j).body ≠ none) := by
  intro r evts h
  obtain ⟨o, levts, hc, hcase⟩ := fetchModel_cases ap opts rt transport fuel r evts h
  obtain ⟨hone, hsucc, hthr⟩ := call_last ap opts transport fuel _ _ _ hc
  rcases hcase with ⟨m, s, ho, -, rfl⟩ | ⟨res, i, ho, -, rfl⟩
  · obtain ⟨-, -, -, hfil⟩ := hthr m s ho
    have hcnt : countAttempts (initEvents ap ++ levts) = countAttempts levts := by
      rw [countAttempts_append, (initEvents_counts ap).2.1, Nat.zero_add]
    rw [hcnt]
    have hrel : ∀ j, releasesIdx (initEvents ap ++ levts) j = releasesIdx levts j := by
      intro j
      rw [releasesIdx_append, releasesIdx_initEvents]
      simp
    constructor
    · intro hb
      rw [hrel, ← releasesIdx_filter, hfil]
      revert hb
      cases hbody : (transport (0 + countAttempts levts - 1)).body with
      | none => simp [Nat.zero_add] at hbody ⊢; simp [hbody]
      | some text =>
        intro hb
        simp only [Nat.zero_add] at hbody ⊢
        simp [hbody, releasesIdx]
    · intro j hj
      rw [hrel, ← releasesIdx_filter, hfil] at hj
      revert hj
      cases hbody : (transport (0 + countAttempts levts - 1)).body with
      | none => simp [releasesIdx]
      | some text =>
        simp only [Nat.zero_add] at hbody ⊢
        simp [releasesIdx, hbody]
        rintro rfl
        simp [hbody]
  · obtain ⟨hi, hres, hok, hfil⟩ := hsucc res i ho
    have hcnt : countAttempts (initEvents ap ++ levts ++ (handleResult rt res i).2) =
        countAttempts levts := by
      rw [countAttempts_append, countAttempts_append, (initEvents_counts ap).2.1,
        (handleResult_counts rt res i).2.2]
      omega
    rw [hcnt]
    have hrel : ∀ j, releasesIdx (initEvents ap ++ levts ++ (handleResult rt res i).2) j =
        releasesIdx (handleResult rt res i).2 j := by
      intro j
      rw [releasesIdx_append, releasesIdx_append, releasesIdx_initEvents,
        ← releasesIdx_filter levts, hfil]
      simp [releasesIdx]
    obtain ⟨hnone, hsome, hback⟩ := handleResult_release rt res i
    simp only [Nat.zero_add] at hi
    constructor
    · intro hb
      rw [hrel, ← hi]
      apply hsome
      rw [← hi] at hb
      rw [← hres] at hb
      exact hb
    · intro j hj
      rw [hrel] at hj
      obtain ⟨rfl, hbne⟩ := hback j hj
      refine ⟨by omega, ?_⟩
      rw [← hres]
      exact hbne



/-- Claim C1 (code-bug evidence): `SpotifyClient.fetch` consumes a dynamic
provider through exactly `getToken()` and `refreshToken()` (the concrete
run shows the one `getToken()` resolution and the 401-path
`refreshToken()` invocation), but the `IAuthProvider` interface exported
by the auth module declares `getAccessToken` and `refresh` instead, so
the members the executor invokes are NOT among the interface's members. -/
theorem c1_provider_interface_mismatch :
    clientConsumedAuthMembers = ["getToken", "refreshToken"] ∧
    (¬ ∀ m ∈ clientConsumedAuthMembers, m ∈ IAuthProviderMembers) ∧
    fetchModel (.obj demoProvider) {} .void t401then200 2 =
      some (.okVoid,
        [.getTokenCall "t0", .attempt "Bearer t0" 401, .refreshCall "t1",
         .attempt "Bearer t1" 200, .bodyCancel 1]) :=
  ⟨rfl, by decide, by rfl⟩

/-- Claim C4 (code-bug evidence): a caller-supplied `Accept` header is
`append`ed to the base `Accept` header (the outgoing value combines both,
separated by a comma), not overwritten as the `FetchOpts.headers` doc
comment and the spec state. -/
theorem c4_caller_header_appended_not_overwritten :
    headersGet (buildHeaders [("Accept", "text/xml")]) "Accept" =
      some "application/json, text/xml" ∧
    headersGet (buildHeaders [("Accept", "text/xml")]) "Accept" ≠ some "text/xml" :=
  ⟨rfl, by decide⟩

/-- Witness for C2 at a concrete provider and an always-401 transport. -/
theorem c2_at_most_one_refresh_witness :
    (fetchModel (.obj demoProvider) {} .json always401 2).map
        (fun r => (r.1, countRefresh r.2, countAttempts r.2)) =
      some (.spotifyError (some (.str "null")) 401, 1, 2) := by
  rw [(c2_at_most_one_refresh (.obj demoProvider) {} .json always401 2).2 demoProvider rfl
    (fun i => rfl) (by omega)]
  rfl

/-- Counterexample to C3 as stated: with a provider whose `getToken`
would yield `"t1"` on a second invocation, a 503-then-200 run makes two
physical attempts but only one `getToken()` invocation, and the second
attempt still carries `"Bearer t0"` - the freshly swapped token is not
resolved before the retry attempt. -/
theorem c3_stale_token_on_retry :
    fetchModel (.obj swapProvider) {retryTimesOn5xx := 1} .void t503then200 2 =
      some (.okVoid,
        [.getTokenCall "t0", .attempt "Bearer t0" 503, .attempt "Bearer t0" 200]) ∧
    swapProvider.getToken 1 = "t1" ∧
    ("Bearer t0" : String) ≠ "Bearer t1" ∧
    countGetToken
      [.getTokenCall "t0", .attempt "Bearer t0" 503, .attempt "Bearer t0" 200] = 1 ∧
    countAttempts
      [.getTokenCall "t0", .attempt "Bearer t0" 503, .attempt "Bearer t0" 200] = 2 :=
  ⟨rfl, rfl, by decide, rfl, rfl⟩

/-- Witness for the amended C3 on the concrete 503-then-200 run. -/
theorem c3_token_resolved_once_witness :
    countGetToken
        [.getTokenCall "t0", .attempt "Bearer t0" 503, .attempt "Bearer t0" 200] =
      (if (AuthProvider.obj swapProvider).isObj then 1 else 0) ∧
    tokensOk (AuthProvider.obj swapProvider).initialToken
      [.getTokenCall "t0", .attempt "Bearer t0" 503, .attempt "Bearer t0" 200] = true :=
  c3_token_resolved_once (.obj swapProvider) {retryTimesOn5xx := 1} .void t503then200 2
    .okVoid _ rfl

/-- Counterexample to C9 as stated: a 503 response with a body that is
retried (5xx budget 1) is abandoned; the trace contains no release event
for attempt 0 although its body stream was present. -/
theorem c9_abandoned_stream_not_released :
    fetchModel (.str "tok") {retryTimesOn5xx := 1} .void t503then200 2 =
      some (.okVoid, [.attempt "Bearer tok" 503, .attempt "Bearer tok" 200]) ∧
    (t503then200 0).body = some "oops" ∧
    releasesIdx [.attempt "Bearer tok" 503, .attempt "Bearer tok" 200] 0 = false :=
  ⟨rfl, rfl, rfl⟩

/-- Witness for the amended C9: the terminal 503 body is fully read. -/
theorem c9_last_stream_released_witness :
    releasesIdx [.attempt "Bearer tok" 503, .bodyText 0]
      (countAttempts [.attempt "Bearer tok" 503, .bodyText 0] - 1) = true :=
  (c9_last_stream_released (.str "tok") {} .json always503 1
    (.spotifyError (some (.str "Internal Server Error")) 503)
    [.attempt "Bearer tok" 503, .bodyText 0] rfl).1 (by decide)

/-- Claim C6: with the rate-limit flag enabled, a 429 response whose
`Retry-After` converts to a non-zero number `k` makes the executor sleep
`k` seconds (`k * 1000` ms) and retry with the loop state unchanged
except the attempt index (same retry budget, same refresh flag, same
token); such retries have no limit (a transport answering that way
forever never terminates, for any fuel); and a 429 whose `Retry-After`
is absent or converts to zero falls through to the terminal error path
with status 429 instead of retrying. -/
theorem c6_rate_limit_retry (ap : AuthProvider) (opts : SpotifyClientOpts)
    (transport : Transport) (hflag : opts.retryOnRateLimit = true) :
    (∀ (st : LoopSt) (fuel k : Nat), (transport st.attemptIdx).status = 429 →
      jsNumber (headersGet (transport st.attemptIdx).headers "Retry-After") =
        some (k + 1) →
      call ap opts transport (fuel + 1) st =
        (call ap opts transport fuel { st with attemptIdx := st.attemptIdx + 1 }).map
          (fun r => (r.1, .attempt ("Bearer " ++ st.accessToken) 429 ::
            .sleepMs ((k + 1) * 1000) :: r.2))) ∧
    ((∀ i, (transport i).status = 429 ∧
        ∃ k, jsNumber (headersGet (transport i).headers "Retry-After") = some (k + 1)) →
      ∀ (fuel : Nat) (rt : ExpectedResponse),
        fetchModel ap opts rt transport fuel = none) ∧
    (∀ (st : LoopSt) (fuel : Nat), (transport st.attemptIdx).status = 429 →
      jsNumber (headersGet (transport st.attemptIdx).headers "Retry-After") = some 0 →
      call ap opts transport (fuel + 1) st =
        some (.thrown (terminalMessage (transport st.attemptIdx)) 429,
          .attempt ("Bearer " ++ st.accessToken) 429 ::
            (match (transport st.attemptIdx).body with
             | none => []
             | some _ => [.bodyText st.attemptIdx]))) := by
  refine ⟨?_, ?_, ?_⟩
  · intro st fuel k h1 h2
    exact call_429_wait_step ap opts transport st fuel k hflag h1 h2
  · intro hT fuel rt
    simp only [fetchModel]
    rw [call_429_forever ap opts transport hflag hT]
  · intro st fuel h1 h2
    exact call_429_zero_step ap opts transport st fuel h1 h2

/-- Witness for C6: `Retry-After: 2` then 200 sleeps 2000 ms, retries
once with full state, and succeeds. -/
theorem c6_rate_limit_retry_witness :
    call (.str "tok") {retryOnRateLimit := true} t429then200 2
      { accessToken := "tok", isTriedRefreshToken := false, retry5xx := 0,
        attemptIdx := 0, refreshIdx := 0 } =
      some (.success (t429then200 1) 1,
        [.attempt "Bearer tok" 429, .sleepMs 2000, .attempt "Bearer tok" 200]) := by
  rw [(c6_rate_limit_retry (.str "tok") {retryOnRateLimit := true} t429then200 rfl).1
    { accessToken := "tok", isTriedRefreshToken := false, retry5xx := 0,
      attemptIdx := 0, refreshIdx := 0 } 1 1 rfl rfl]
  rfl

/-- Claim C7 (amended): when no retry path applies to the first response,
the call fails with a SpotifyError whose status is the response's status
and whose message is `terminalMessage`: the literal `"null"` when the
body is absent; otherwise, from the body text, the raw text when
`JSON.parse` throws or the `error`/`message` access throws (parsed value
primitive, `null`, or without an `error` member), the envelope's
`message` value when present - and the JS value `undefined` (not the raw
text) when the parsed body has an `error` object lacking `message`. -/
theorem c7_terminal_error_message (ap : AuthProvider) (opts : SpotifyClientOpts)
    (rt : ExpectedResponse) (transport : Transport) (fuel : Nat)
    (h1 : (transport 0).ok = false)
    (h2 : ¬((transport 0).status = 401 ∧ ap.isObj = true))
    (h3 : ¬((transport 0).status = 429 ∧ opts.retryOnRateLimit = true ∧
      truthyNum (jsNumber (headersGet (transport 0).headers "Retry-After")) = true))
    (h4 : ¬(statusStartsWith5 (transport 0).status = true ∧ opts.retryTimesOn5xx ≠ 0))
    (h5 : 1 ≤ fuel) :
    (fetchModel ap opts rt transport fuel).map Prod.fst =
      some (.spotifyError (terminalMessage (transport 0)) (transport 0).status) := by
  obtain ⟨f, rfl⟩ : ∃ f, fuel = f + 1 := ⟨fuel - 1, by omega⟩
  simp only [fetchModel]
  rw [call_terminal_step ap opts transport _ f h1 (by simpa using h2) h3 (by simpa using h4)]
  rfl

/-- Counterexample to C7 as stated: body `{"error":{}}` parses as JSON
but not as the envelope; the claim requires the raw body text as the
message, yet the code produces the JS value `undefined` (`none`). -/
theorem c7_error_without_message_field :
    (fetchModel (.str "tok") {} .json t418 1).map Prod.fst =
      some (.spotifyError none 418) ∧
    (none : Option Json) ≠ some (.str "\x7b\"error\":\x7b\x7d\x7d") :=
  ⟨rfl, by simp⟩

/-- Witness for the amended C7: unparseable body text is used verbatim. -/
theorem c7_terminal_error_message_witness :
    (fetchModel (.str "tok") {} .json always503 1).map Prod.fst =
      some (.spotifyError (some (.str "Internal Server Error")) 503) := by
  rw [c7_terminal_error_message (.str "tok") {} .json always503 1 rfl (by decide)
    (by decide) (by decide) (by omega)]
  rfl

/-- Claim C8 (amended): the loop hands a response to result handling only
when `res.ok` holds (status 200-299, not every status below 400); for the
structured shape a response without a body yields the generic
`Error("Body not found")` - a failure distinct from SpotifyError and
carrying no status - and a response whose body parses yields exactly the
parsed value. -/
theorem c8_success_result_handling :
    (∀ (ap : AuthProvider) (opts : SpotifyClientOpts) (transport : Transport)
        (fuel : Nat) (st : LoopSt) (res : Response) (i : Nat) (evts : List Event),
      call ap opts transport fuel st = some (.success res i, evts) → res.ok = true) ∧
    (∀ (res : Response) (i : Nat), res.body = none →
      handleResult .json res i = (.genericError "Body not found", [])) ∧
    (∀ (res : Response) (i : Nat) (text : String) (v : Json), res.body = some text →
      jsonParse text = some v →
      handleResult .json res i = (.okJson v, [.bodyJson i])) ∧
    (∀ (msg : String) (m : Option Json) (s : Nat),
      FetchResult.genericError msg ≠ .spotifyError m s) := by
  refine ⟨?_, ?_, ?_, ?_⟩
  · intro ap opts transport fuel st res i evts hc
    exact ((call_last ap opts transport fuel st _ _ hc).2.1 res i rfl).2.2.1
  · intro res i hb
    simp [handleResult, hb]
  · intro res i text v hb hj
    simp [handleResult, hb, hj]
  · intro msg m s
    simp

/-- Counterexample to C8 as stated: a 304 response (status < 400) with a
parseable body is NOT treated as success - the call fails with a
SpotifyError of status 304 instead of returning the parsed body. -/
theorem c8_status_304_not_success :
    fetchModel (.str "tok") {} .json t304 1 =
      some (.spotifyError (some (.str "\x7b\"a\":1\x7d")) 304,
        [.attempt "Bearer tok" 304, .bodyText 0]) ∧
    (t304 0).status < 400 ∧
    jsonParse "\x7b\"a\":1\x7d" = some (.obj [("a", .num 1)]) ∧
    FetchResult.spotifyError (some (.str "\x7b\"a\":1\x7d")) 304 ≠
      .okJson (.obj [("a", .num 1)]) :=
  ⟨rfl, by decide, rfl, by simp⟩

/-- Witness for the amended C8 on a 200 response with body `{}`. -/
theorem c8_success_result_handling_witness :
    handleResult .json ⟨200, [], some "\x7b\x7d"⟩ 0 = (.okJson (.obj []), [.bodyJson 0]) :=
  c8_success_result_handling.2.2.1 ⟨200, [], some "\x7b\x7d"⟩ 0 "\x7b\x7d" (.obj []) rfl rfl

/-- Claim C10: with the rate-limit flag enabled, a 429 response whose
`Retry-After` header is present but does not convert to a number (JS
`NaN`, e.g. `"abc"`) is never retried: exactly one attempt occurs and the
call fails through the generic error path with a SpotifyError of status
429, exactly as in the absent-or-zero case. -/
theorem c10_non_numeric_retry_after (ap : AuthProvider) (opts : SpotifyClientOpts)
    (rt : ExpectedResponse) (transport : Transport) (fuel : Nat) (hdr : String)
    (hflag : opts.retryOnRateLimit = true)
    (hst : (transport 0).status = 429)
    (hh : headersGet (transport 0).headers "Retry-After" = some hdr)
    (hnan : jsNumber (some hdr) = none)
    (hf : 1 ≤ fuel) :
    (fetchModel ap opts rt transport fuel).map (fun r => (r.1, countAttempts r.2)) =
      some (.spotifyError (terminalMessage (transport 0)) 429, 1) := by
  obtain ⟨f, rfl⟩ : ∃ f, fuel = f + 1 := ⟨fuel - 1, by omega⟩
  simp only [fetchModel]
  rw [call_terminal_step ap opts transport _ f
    (not_ok_of_ge_300 _ (by rw [hst]; omega))
    (by simp [hst])
    (by simp [hst, hh, hnan, truthyNum])
    (by simp [hst, (by decide : statusStartsWith5 429 = false)])]
  rw [hst]
  cases hb : (transport 0).body <;> cases ap <;>
    simp [hb, initEvents, countAttempts]

/-- Witness for C10 with the literal header text `"abc"`. -/
theorem c10_non_numeric_retry_after_witness :
    (fetchModel (.str "tok") {retryOnRateLimit := true} .json t429abc 1).map
        (fun r => (r.1, countAttempts r.2)) =
      some (.spotifyError (some (.str "slow down")) 429, 1) := by
  rw [c10_non_numeric_retry_after (.str "tok") {retryOnRateLimit := true} .json t429abc 1
    "abc" rfl rfl rfl rfl (by omega)]
  rfl

/-- Witness for C5: `retryTimesOn5xx = 2`, delay 7 ms, three 503s. -/
theorem c5_server_error_retries_witness :
    (fetchModel (.str "tok") {retryTimesOn5xx := 2, retryDelayOn5xx := 7} .json
        always503 3).map (fun r => (r.1, countAttempts r.2, sleepEvents r.2)) =
      some (.spotifyError (some (.str "Internal Server Error")) 503, 3,
        [.sleepMs 7, .sleepMs 7]) := by
  rw [c5_server_error_retries (.str "tok") {retryTimesOn5xx := 2, retryDelayOn5xx := 7} .json
    always503 503 2 3 (by omega) (by omega) (fun i => rfl) rfl (by omega)]
  rfl

end Soundify
